import Mathlib

/-!
Verification of the bank-marketing prediction service.

Shallow embedding of the inference-serving core of the repository:
`src/model_server.py` (class `BankMarketingPredictor`: `_load_pipeline`,
`predict`, `predict_batch`) and the FastAPI routes of `src/api.py`
(`PredictionRequest`, `predict`, `predict_batch`).

Modelling decisions, all taken from the source:
- pandas DataFrames are row-major lists of rows; a row is an ordered
  association list from column name to cell value.  Column labels in the
  frames handled by this code are unique, so `setField` replaces the first
  occurrence or appends a new column at the end, exactly as pandas column
  assignment behaves on a frame with unique labels.
- Machine floats are modelled as rationals; class indices as integers.
- The opaque sklearn pipeline is a pair of (pure) functions producing either
  a value or a raised exception, mirroring that `pipeline.predict` /
  `pipeline.predict_proba` may raise arbitrary Python exceptions.
- Fallible code returns `Except Exc`; `try/except ... raise` blocks that
  log and re-raise are the identity on the error.
- Pipeline invocations are counted explicitly (`CallCount`) so that claims
  about how many times the pipeline is invoked are statable.
-/

/-- A cell value of a pandas DataFrame: an integer, a string, or a
floating-point number (modelled as a rational). -/
inductive Value where
  | int (n : Int)
  | str (s : String)
  | num (q : ℚ)
deriving DecidableEq

/-- A DataFrame row: an ordered association list from column name to value
(pandas keeps columns in insertion order; `pd.DataFrame([d])` keeps the
dict's key order). -/
abbrev Row := List (String × Value)

/-- A DataFrame, row-major.  All rows of the frames built by this code share
the same ordered column list. -/
abbrev DataFrame := List Row

/-- Column lookup inside one row (first matching label). -/
def Row.getField : Row → String → Option Value
  | [], _ => none
  | (k2, v) :: rest, k => if k2 = k then some v else Row.getField rest k

/-- Per-row effect of a pandas column assignment `df[k] = ...`: replace the
value of an existing column label in place, or append a new column at the
end.  Column labels are unique in the frames this code manipulates. -/
def Row.setField : Row → String → Value → Row
  | [], k, v => [(k, v)]
  | (k2, v2) :: rest, k, v =>
    if k2 = k then (k2, v) :: rest else (k2, v2) :: Row.setField rest k v

/-- Exceptions.  The first group models what the Python code actually
raises; the second group (`validationError`, `pipelineInferenceError`,
`pipelineLoadError`, `serviceUnavailableError`) models the error taxonomy
named by the specification, so that claims about those kinds are statable.
The embedded code never produces the second group. -/
inductive Exc where
  | raised (msg : String)
  | fileNotFound (path : String)
  | indexError
  | valueError (msg : String)
  | httpException (status : Nat) (detail : String)
  | validationError (msg : String)
  | pipelineInferenceError (msg : String)
  | pipelineLoadError (msg : String)
  | serviceUnavailableError (msg : String)
deriving DecidableEq

/-- Is the exception the specification's `ValidationError` kind? -/
def Exc.isValidationError : Exc → Bool
  | .validationError _ => true
  | _ => false

/-- Is the exception the specification's `PipelineInferenceError` kind? -/
def Exc.isPipelineInferenceError : Exc → Bool
  | .pipelineInferenceError _ => true
  | _ => false

/-- Is the exception the specification's `PipelineLoadError` kind? -/
def Exc.isPipelineLoadError : Exc → Bool
  | .pipelineLoadError _ => true
  | _ => false

/-- Is the exception the specification's `ServiceUnavailableError` kind? -/
def Exc.isServiceUnavailableError : Exc → Bool
  | .serviceUnavailableError _ => true
  | _ => false

/-- Python `str(e)` rendering of an exception, used by the API layer's
`f"...: {str(e)}"` wrapping. -/
def excMessage : Exc → String
  | .raised m => m
  | .fileNotFound p => "No such file or directory: " ++ p
  | .indexError => "index out of range"
  | .valueError m => m
  | .httpException code d => toString code ++ ": " ++ d
  | .validationError m => m
  | .pipelineInferenceError m => m
  | .pipelineLoadError m => m
  | .serviceUnavailableError m => m

/-- pandas column assignment `df[k] = vs` at the frame level: requires the
assigned sequence to have exactly one value per row, otherwise pandas raises
`ValueError: Length of values does not match length of index`. -/
def DataFrame.setColumn (df : DataFrame) (k : String) (vs : List Value) :
    Except Exc DataFrame :=
  if df.length = vs.length then
    .ok (List.zipWith (fun r v => Row.setField r k v) df vs)
  else
    .error (.valueError "Length of values does not match length of index")

/-- `df.copy()`: pandas copies the data (deep copy by default), so later
column assignments on the copy never affect the original frame. -/
def DataFrame.copy (df : DataFrame) : DataFrame := df

/-- The opaque loaded sklearn pipeline (`joblib` artifact): `predict`
returns one class index per row, `predict_proba` one probability vector per
row.  Either operation may raise. -/
structure Pipeline where
  predict : DataFrame → Except Exc (List Int)
  predict_proba : DataFrame → Except Exc (List (List ℚ))

/-- How many times each pipeline operation was invoked during one service
call. -/
structure CallCount where
  predictCalls : Nat
  probaCalls : Nat
deriving DecidableEq

/-- The result dictionary returned by `BankMarketingPredictor.predict`. -/
structure PredictionResult where
  prediction : Int
  prediction_label : String
  probability_no : ℚ
  probability_yes : ℚ
  confidence : ℚ
deriving DecidableEq

/-- Outcome of one call to the single-prediction operation: the returned
value or raised exception, plus the pipeline invocation count. -/
structure SingleOutcome where
  result : Except Exc PredictionResult
  calls : CallCount

/-- Outcome of one call to the batch operation: returned frame or raised
exception, pipeline invocation count, and the value held by the caller's
input frame after the call (for the frame condition). -/
structure BatchOutcome where
  result : Except Exc DataFrame
  calls : CallCount
  input_after : DataFrame

/-- Python `max(xs)` on a sequence of floats: raises `ValueError` on an
empty sequence. -/
def pymax : List ℚ → Except Exc ℚ
  | [] => .error (.valueError "max of empty sequence")
  | x :: xs => .ok (xs.foldl max x)

/-- Total companion of `pymax` (value on nonempty lists; junk on `[]`). -/
def pymaxD : List ℚ → ℚ
  | [] => 0
  | x :: xs => xs.foldl max x

/-- numpy 2-D column extraction `a[:, j]`: the j-th entry of every row. -/
def npCol : List (List ℚ) → Nat → Except Exc (List ℚ)
  | [], _ => .ok []
  | v :: vs, j =>
    match v.get? j with
    | none => .error .indexError
    | some x =>
      match npCol vs j with
      | .error e => .error e
      | .ok xs => .ok (x :: xs)

/-- numpy `np.max(a, axis=1)`: the maximum of every row. -/
def npMaxAxis1 : List (List ℚ) → Except Exc (List ℚ)
  | [] => .ok []
  | v :: vs =>
    match pymax v with
    | .error e => .error e
    | .ok x =>
      match npMaxAxis1 vs with
      | .error e => .error e
      | .ok xs => .ok (x :: xs)

/-- The predictor object of `src/model_server.py`: holds the artifact path
and the loaded pipeline. -/
structure BankMarketingPredictor where
  pipeline_path : String
  pipeline : Pipeline

/-- Embedding of `BankMarketingPredictor.predict` (src/model_server.py,
lines 36-56).  The input dict is wrapped into a one-row frame, the pipeline
is invoked once for `predict` and once for `predict_proba`, entry `[0]` of
each result is taken, and the result dict is assembled.  The
`except Exception: logger.error(...); raise` block re-raises the original
exception unchanged, so errors pass through untouched. -/
def BankMarketingPredictor.predict (self : BankMarketingPredictor)
    (input_data : Row) : SingleOutcome :=
  let df : DataFrame := [input_data]
  match self.pipeline.predict df with
  | .error e => ⟨.error e, ⟨1, 0⟩⟩
  | .ok preds =>
    match preds.get? 0 with
    | none => ⟨.error .indexError, ⟨1, 0⟩⟩
    | some prediction =>
      match self.pipeline.predict_proba df with
      | .error e => ⟨.error e, ⟨1, 1⟩⟩
      | .ok probas =>
        match probas.get? 0 with
        | none => ⟨.error .indexError, ⟨1, 1⟩⟩
        | some prediction_proba =>
          match prediction_proba.get? 0, prediction_proba.get? 1,
              pymax prediction_proba with
          | some p0, some p1, .ok conf =>
            ⟨.ok ⟨prediction, if prediction = 1 then "yes" else "no",
                  p0, p1, conf⟩, ⟨1, 1⟩⟩
          | _, _, _ => ⟨.error .indexError, ⟨1, 1⟩⟩

/-- Embedding of the result-frame construction of
`BankMarketingPredictor.predict_batch` (src/model_server.py, lines 67-73):
`results_df = input_df.copy()` followed by the five column assignments, in
source order. -/
def buildResults (input_df : DataFrame) (predictions : List Int)
    (prediction_probas : List (List ℚ)) : Except Exc DataFrame :=
  let results_df := DataFrame.copy input_df
  match DataFrame.setColumn results_df "prediction"
      (predictions.map fun p => Value.int p) with
  | .error e => .error e
  | .ok r1 =>
  match DataFrame.setColumn r1 "prediction_label"
      (predictions.map fun p => Value.str (if p = 1 then "yes" else "no")) with
  | .error e => .error e
  | .ok r2 =>
  match npCol prediction_probas 0 with
  | .error e => .error e
  | .ok c0 =>
  match DataFrame.setColumn r2 "probability_no" (c0.map fun q => Value.num q) with
  | .error e => .error e
  | .ok r3 =>
  match npCol prediction_probas 1 with
  | .error e => .error e
  | .ok c1 =>
  match DataFrame.setColumn r3 "probability_yes" (c1.map fun q => Value.num q) with
  | .error e => .error e
  | .ok r4 =>
  match npMaxAxis1 prediction_probas with
  | .error e => .error e
  | .ok cm =>
  match DataFrame.setColumn r4 "confidence" (cm.map fun q => Value.num q) with
  | .error e => .error e
  | .ok r5 => .ok r5

/-- Embedding of `BankMarketingPredictor.predict_batch` (src/model_server.py,
lines 58-80).  The pipeline is invoked once with the whole table for
`predict` and once for `predict_proba`; the result frame is built on a copy
of the input; the `except Exception: logger.error(...); raise` block
re-raises the original exception unchanged.  `input_after` records the
caller's frame as it stands when the call returns or raises. -/
def BankMarketingPredictor.predict_batch (self : BankMarketingPredictor)
    (input_df : DataFrame) : BatchOutcome :=
  match self.pipeline.predict input_df with
  | .error e => ⟨.error e, ⟨1, 0⟩, input_df⟩
  | .ok predictions =>
    match self.pipeline.predict_proba input_df with
    | .error e => ⟨.error e, ⟨1, 1⟩, input_df⟩
    | .ok prediction_probas =>
      ⟨buildResults input_df predictions prediction_probas, ⟨1, 1⟩, input_df⟩

/-- Embedding of `BankMarketingPredictor._load_pipeline` (src/model_server.py,
lines 27-34).  `joblib.load` is abstracted as the `store` argument; the
`except Exception: logger.error(...); raise` block re-raises the original
exception unchanged, so the loader is the identity on the store's outcome.
The leading underscore of the Python name is dropped. -/
def BankMarketingPredictor.load_pipeline
    (store : String → Except Exc Pipeline) (path : String) :
    Except Exc Pipeline :=
  store path

/-- Embedding of `BankMarketingPredictor.__init__` (src/model_server.py,
lines 21-25), which stores the path and immediately calls `_load_pipeline`;
a load failure propagates out of the constructor, so no predictor object
exists afterwards (the module-level `predictor = BankMarketingPredictor()`
then aborts the import of `src.model_server`). -/
def BankMarketingPredictor.init (store : String → Except Exc Pipeline)
    (pipeline_path : String) : Except Exc BankMarketingPredictor :=
  match BankMarketingPredictor.load_pipeline store pipeline_path with
  | .error e => .error e
  | .ok p => .ok ⟨pipeline_path, p⟩

/-- Embedding of the pydantic request model `PredictionRequest`
(src/api.py, lines 29-57): it declares no fields at all and sets
`Config.extra = "allow"`, so every record validates unchanged and
`request.dict()` returns exactly the fields that were sent. -/
def PredictionRequest.validate (r : Row) : Except Exc Row := .ok r

/-- Embedding of the `/predict` route (src/api.py, lines 70-83): pydantic
validation (which never fails), then `predictor.predict`; any exception is
converted to `HTTPException(500, "Error making prediction: ...")`. -/
def api_predict (predictor : BankMarketingPredictor) (request : Row) :
    Except Exc PredictionResult × CallCount :=
  match PredictionRequest.validate request with
  | .error e => (.error e, ⟨0, 0⟩)
  | .ok input_data =>
    let out := predictor.predict input_data
    match out.result with
    | .ok result => (.ok result, out.calls)
    | .error e =>
      (.error (.httpException 500 ("Error making prediction: " ++ excMessage e)),
       out.calls)

/-- The JSON body returned by the `/predict/batch` route. -/
structure BatchResponse where
  message : String
  total_samples : Nat
  predictions : DataFrame

/-- Embedding of the `/predict/batch` route (src/api.py, lines 85-110) from
the point where the uploaded CSV has been parsed into a frame (file-type
check and CSV decoding are transport details outside the claims).  Inside
the route's `try` block, an empty frame raises
`HTTPException(400, "Uploaded file is empty")` before the predictor is
called; the route's own `except Exception` then catches that exception and
re-raises it as `HTTPException(500, "Error processing batch prediction:
...")`, and it likewise wraps any exception out of `predict_batch`. -/
def api_predict_batch (predictor : BankMarketingPredictor) (df : DataFrame) :
    Except Exc BatchResponse × CallCount :=
  if df.isEmpty then
    (.error (.httpException 500 ("Error processing batch prediction: " ++
        excMessage (.httpException 400 "Uploaded file is empty"))), ⟨0, 0⟩)
  else
    let out := predictor.predict_batch df
    match out.result with
    | .ok results_df =>
      (.ok ⟨"Batch prediction completed for " ++ toString results_df.length ++
            " samples", results_df.length, results_df⟩, out.calls)
    | .error e =>
      (.error (.httpException 500 ("Error processing batch prediction: " ++
          excMessage e)), out.calls)

/-- The fixed feature schema: the column names of the example record of
`PredictionRequest.Config.json_schema_extra` and of the sample CSV
(src/api.py), in order. -/
def requiredFields : List String :=
  ["age", "occupation", "marital_status", "education", "has_credit",
   "housing_loan", "personal_loan", "contact_mode", "month", "week_day",
   "last_contact_duration", "contacts_per_campaign", "N_last_days",
   "nb_previous_contact", "previous_outcome", "emp_var_rate",
   "cons_price_index", "cons_conf_index", "euri_3_month", "nb_employees"]

/-- A row is a FeatureRecord when its ordered column list is exactly the
fixed schema. -/
def Row.isFeatureRow (r : Row) : Prop :=
  r.map Prod.fst = requiredFields

/-- The per-row content of the batch result frame: the five column
assignments of `predict_batch` applied to one input row, with that row's
class index and probability vector. -/
def rowResult (r : Row) (p : Int) (v : List ℚ) : Row :=
  ((((r.setField "prediction" (Value.int p)).setField "prediction_label"
      (Value.str (if p = 1 then "yes" else "no"))).setField "probability_no"
      (Value.num (v.getD 0 0))).setField "probability_yes"
      (Value.num (v.getD 1 0))).setField "confidence" (Value.num (pymaxD v))

/-- Row-wise view of the batch result frame. -/
def rowResults : DataFrame → List Int → List (List ℚ) → DataFrame
  | r :: rs, p :: ps, v :: vs => rowResult r p v :: rowResults rs ps vs
  | _, _, _ => []

/-- The PredictionResult invariant of the specification. -/
def resOK (res : PredictionResult) : Prop :=
  res.probability_no + res.probability_yes = 1 ∧
  res.confidence = max res.probability_no res.probability_yes ∧
  (res.prediction_label = "yes" ↔ res.prediction = 1)

/-- The result invariant for one row of the batch result frame. -/
def rowOK (row : Row) : Prop :=
  ∃ (p : Int) (q0 q1 : ℚ),
    row.getField "prediction" = some (Value.int p) ∧
    row.getField "probability_no" = some (Value.num q0) ∧
    row.getField "probability_yes" = some (Value.num q1) ∧
    row.getField "confidence" = some (Value.num (max q0 q1)) ∧
    q0 + q1 = 1 ∧
    (row.getField "prediction_label" = some (Value.str "yes") ↔ p = 1)

/-- A stub pipeline: class index 1 and probability vector [0.3, 0.7] for
every row of any input. -/
def stubPipeline : Pipeline :=
  ⟨fun df => .ok (df.map fun _ => 1),
   fun df => .ok (df.map fun _ => [3/10, 7/10])⟩

/-- A predictor holding the stub pipeline. -/
def stubPredictor : BankMarketingPredictor :=
  ⟨"models/best_rf_pipeline.pkl", stubPipeline⟩

/-- A pipeline whose operations always raise. -/
def raisingPipeline : Pipeline :=
  ⟨fun _ => .error (.raised "boom"), fun _ => .error (.raised "boom")⟩

/-- A predictor holding the raising pipeline. -/
def raisingPredictor : BankMarketingPredictor :=
  ⟨"models/best_rf_pipeline.pkl", raisingPipeline⟩

/-- A pipeline whose predict succeeds (class index 1 per row) but whose
predict_proba always raises. -/
def probaRaisingPipeline : Pipeline :=
  ⟨fun df => .ok (df.map fun _ => 1), fun _ => .error (.raised "proba boom")⟩

/-- A predictor holding the proba-raising pipeline. -/
def probaRaisingPredictor : BankMarketingPredictor :=
  ⟨"models/best_rf_pipeline.pkl", probaRaisingPipeline⟩

/-- An artifact store with no artifacts: loading any path raises
`FileNotFoundError`, as `joblib.load` does on a nonexistent file. -/
def emptyStore : String → Except Exc Pipeline :=
  fun path => .error (.fileNotFound path)

/-- The example record of `PredictionRequest.Config.json_schema_extra`
(src/api.py), as a row. -/
def sampleRecord : Row :=
  [("age", .int 35), ("occupation", .str "admin."),
   ("marital_status", .str "married"), ("education", .str "university.degree"),
   ("has_credit", .str "no"), ("housing_loan", .str "yes"),
   ("personal_loan", .str "no"), ("contact_mode", .str "cellular"),
   ("month", .str "may"), ("week_day", .str "thu"),
   ("last_contact_duration", .int 261), ("contacts_per_campaign", .int 1),
   ("N_last_days", .int 999), ("nb_previous_contact", .int 0),
   ("previous_outcome", .str "nonexistent"), ("emp_var_rate", .num (11/10)),
   ("cons_price_index", .num (93994/1000)), ("cons_conf_index", .num (-364/10)),
   ("euri_3_month", .num (4857/1000)), ("nb_employees", .int 5191)]

/-- A record missing 19 of the 20 schema fields. -/
def recordMissingFields : Row := [("age", Value.int 35)]

/-! Shared lemmas about the embedded pandas/numpy operations. -/

theorem Row.getField_setField_self (r : Row) (k : String) (v : Value) :
    (r.setField k v).getField k = some v := by
  induction r with
  | nil => simp [Row.setField, Row.getField]
  | cons p rest ih =>
    obtain ⟨k2, v2⟩ := p
    by_cases h : k2 = k
    · simp [Row.setField, Row.getField, h]
    · simp [Row.setField, Row.getField, h, ih]

theorem Row.getField_setField_ne (r : Row) (k k2 : String) (v : Value)
    (h : k ≠ k2) : (r.setField k2 v).getField k = r.getField k := by
  induction r with
  | nil => simp [Row.setField, Row.getField, Ne.symm h]
  | cons p rest ih =>
    obtain ⟨k3, v3⟩ := p
    by_cases h3 : k3 = k2
    · subst h3
      have h3k : k3 ≠ k := fun hh => h (hh ▸ rfl)
      simp [Row.setField, Row.getField, h3k]
    · by_cases h3k : k3 = k
      · subst h3k
        simp [Row.setField, Row.getField, h3]
      · simp [Row.setField, Row.getField, h3, h3k, ih]

theorem Row.setField_eq_append (r : Row) (k : String) (v : Value)
    (h : r.getField k = none) : r.setField k v = r ++ [(k, v)] := by
  induction r with
  | nil => rfl
  | cons p rest ih =>
    obtain ⟨k2, v2⟩ := p
    by_cases h2 : k2 = k
    · simp [Row.getField, h2] at h
    · simp only [Row.getField, if_neg h2] at h
      simp [Row.setField, h2, ih h]

theorem Row.getField_append (r s : Row) (k : String) :
    (r ++ s).getField k =
      match r.getField k with
      | some v => some v
      | none => s.getField k := by
  induction r with
  | nil => simp [Row.getField]
  | cons p rest ih =>
    obtain ⟨k2, v2⟩ := p
    by_cases h2 : k2 = k
    · simp [Row.getField, h2]
    · simp [Row.getField, h2, ih]

theorem Row.getField_eq_none_of_not_mem (r : Row) (k : String)
    (h : k ∉ r.map Prod.fst) : r.getField k = none := by
  induction r with
  | nil => rfl
  | cons p rest ih =>
    obtain ⟨k2, v2⟩ := p
    simp only [List.map_cons, List.mem_cons, not_or] at h
    obtain ⟨h1, h2⟩ := h
    have h1' : k2 ≠ k := fun hh => h1 hh.symm
    simp [Row.getField, h1', ih h2]

theorem setColumn_eq (df : DataFrame) (k : String) (vs : List Value)
    (h : df.length = vs.length) :
    DataFrame.setColumn df k vs =
      .ok (List.zipWith (fun r v => Row.setField r k v) df vs) := by
  simp [DataFrame.setColumn, h]

theorem npCol_zero_of_pairs (probas : List (List ℚ))
    (hv : ∀ v ∈ probas, ∃ q0 q1, v = [q0, q1]) :
    npCol probas 0 = .ok (probas.map fun v => v.getD 0 0) := by
  induction probas with
  | nil => rfl
  | cons v vs ih =>
    obtain ⟨q0, q1, rfl⟩ := hv v (List.mem_cons_self v vs)
    have h2 := ih (fun w hw => hv w (List.mem_cons_of_mem _ hw))
    simp [npCol, h2]

theorem npCol_one_of_pairs (probas : List (List ℚ))
    (hv : ∀ v ∈ probas, ∃ q0 q1, v = [q0, q1]) :
    npCol probas 1 = .ok (probas.map fun v => v.getD 1 0) := by
  induction probas with
  | nil => rfl
  | cons v vs ih =>
    obtain ⟨q0, q1, rfl⟩ := hv v (List.mem_cons_self v vs)
    have h2 := ih (fun w hw => hv w (List.mem_cons_of_mem _ hw))
    simp [npCol, h2]

theorem npMaxAxis1_of_pairs (probas : List (List ℚ))
    (hv : ∀ v ∈ probas, ∃ q0 q1, v = [q0, q1]) :
    npMaxAxis1 probas = .ok (probas.map pymaxD) := by
  induction probas with
  | nil => rfl
  | cons v vs ih =>
    obtain ⟨q0, q1, rfl⟩ := hv v (List.mem_cons_self v vs)
    have h2 := ih (fun w hw => hv w (List.mem_cons_of_mem _ hw))
    simp [npMaxAxis1, pymax, pymaxD, h2]

theorem chain_eq (input : DataFrame) (preds : List Int)
    (probas : List (List ℚ))
    (hl1 : preds.length = input.length) (hl2 : probas.length = input.length) :
    List.zipWith (fun r v => Row.setField r "confidence" v)
      (List.zipWith (fun r v => Row.setField r "probability_yes" v)
        (List.zipWith (fun r v => Row.setField r "probability_no" v)
          (List.zipWith (fun r v => Row.setField r "prediction_label" v)
            (List.zipWith (fun r v => Row.setField r "prediction" v)
              input (preds.map fun p => Value.int p))
            (preds.map fun p => Value.str (if p = 1 then "yes" else "no")))
          ((probas.map fun v => v.getD 0 0).map fun q => Value.num q))
        ((probas.map fun v => v.getD 1 0).map fun q => Value.num q))
      ((probas.map pymaxD).map fun q => Value.num q)
    = rowResults input preds probas := by
  induction input generalizing preds probas with
  | nil =>
    cases preds with
    | nil =>
      cases probas with
      | nil => rfl
      | cons v vs => simp at hl2
    | cons p ps => simp at hl1
  | cons r rs ih =>
    cases preds with
    | nil => simp at hl1
    | cons p ps =>
      cases probas with
      | nil => simp at hl2
      | cons v vs =>
        have hl1' : ps.length = rs.length := by
          simp only [List.length_cons] at hl1; omega
        have hl2' : vs.length = rs.length := by
          simp only [List.length_cons] at hl2; omega
        simp only [List.map_cons, List.zipWith_cons_cons, rowResults,
          rowResult, ih ps vs hl1' hl2']

theorem buildResults_eq (input : DataFrame) (preds : List Int)
    (probas : List (List ℚ))
    (hl1 : preds.length = input.length)
    (hl2 : probas.length = input.length)
    (hv : ∀ v ∈ probas, ∃ q0 q1, v = [q0, q1]) :
    buildResults input preds probas = .ok (rowResults input preds probas) := by
  have hc0 := npCol_zero_of_pairs probas hv
  have hc1 := npCol_one_of_pairs probas hv
  have hcm := npMaxAxis1_of_pairs probas hv
  simp only [buildResults, DataFrame.copy, hc0, hc1, hcm, setColumn_eq,
    List.length_zipWith, List.length_map, hl1, hl2, min_self]
  exact congrArg Except.ok (chain_eq input preds probas hl1 hl2)

theorem predict_eq (pt : BankMarketingPredictor) (r : Row) (c : Int)
    (cr : List Int) (p0 p1 : ℚ) (pr : List (List ℚ))
    (h1 : pt.pipeline.predict [r] = .ok (c :: cr))
    (h2 : pt.pipeline.predict_proba [r] = .ok ([p0, p1] :: pr)) :
    pt.predict r =
      ⟨.ok ⟨c, if c = 1 then "yes" else "no", p0, p1, max p0 p1⟩, ⟨1, 1⟩⟩ := by
  simp [BankMarketingPredictor.predict, h1, h2, pymax]

theorem predict_batch_eq (pt : BankMarketingPredictor) (input_df : DataFrame)
    (preds : List Int) (probas : List (List ℚ))
    (h1 : pt.pipeline.predict input_df = .ok preds)
    (h2 : pt.pipeline.predict_proba input_df = .ok probas)
    (hl1 : preds.length = input_df.length)
    (hl2 : probas.length = input_df.length)
    (hv : ∀ v ∈ probas, ∃ q0 q1, v = [q0, q1]) :
    pt.predict_batch input_df =
      ⟨.ok (rowResults input_df preds probas), ⟨1, 1⟩, input_df⟩ := by
  simp [BankMarketingPredictor.predict_batch, h1, h2,
    buildResults_eq input_df preds probas hl1 hl2 hv]

theorem rowResults_length (rs : DataFrame) (ps : List Int)
    (vs : List (List ℚ))
    (h1 : ps.length = rs.length) (h2 : vs.length = rs.length) :
    (rowResults rs ps vs).length = rs.length := by
  induction rs generalizing ps vs with
  | nil =>
    cases ps with
    | nil => cases vs with
      | nil => rfl
      | cons v vs => simp at h2
    | cons p ps => simp at h1
  | cons r rs ih =>
    cases ps with
    | nil => simp at h1
    | cons p ps =>
      cases vs with
      | nil => simp at h2
      | cons v vs =>
        have h1' : ps.length = rs.length := by
          simp only [List.length_cons] at h1; omega
        have h2' : vs.length = rs.length := by
          simp only [List.length_cons] at h2; omega
        simp [rowResults, ih ps vs h1' h2']

theorem rowResults_get? (rs : DataFrame) (ps : List Int) (vs : List (List ℚ))
    (i : Nat) (r : Row) (p : Int) (v : List ℚ)
    (hr : rs.get? i = some r) (hp : ps.get? i = some p)
    (hv : vs.get? i = some v) :
    (rowResults rs ps vs).get? i = some (rowResult r p v) := by
  induction rs generalizing ps vs i with
  | nil => simp at hr
  | cons r0 rs ih =>
    cases ps with
    | nil => simp at hp
    | cons p0 ps =>
      cases vs with
      | nil => simp at hv
      | cons v0 vs =>
        cases i with
        | zero =>
          simp only [List.get?_cons_zero, Option.some.injEq] at hr hp hv
          subst hr; subst hp; subst hv
          rfl
        | succ i =>
          simp only [List.get?_cons_succ] at hr hp hv
          simpa [rowResults] using ih ps vs i hr hp hv

theorem mem_rowResults (rs : DataFrame) (ps : List Int) (vs : List (List ℚ))
    (row : Row) (h : row ∈ rowResults rs ps vs) :
    ∃ r p v, v ∈ vs ∧ row = rowResult r p v := by
  induction rs generalizing ps vs with
  | nil =>
    cases ps with
    | nil => cases vs with
      | nil => simp [rowResults] at h
      | cons v vs => simp [rowResults] at h
    | cons p ps => cases vs with
      | nil => simp [rowResults] at h
      | cons v vs => simp [rowResults] at h
  | cons r0 rs ih =>
    cases ps with
    | nil =>
      cases vs with
      | nil => simp [rowResults] at h
      | cons v vs => simp [rowResults] at h
    | cons p0 ps =>
      cases vs with
      | nil => simp [rowResults] at h
      | cons v0 vs =>
        simp only [rowResults, List.mem_cons] at h
        rcases h with h | h
        · exact ⟨r0, p0, v0, by simp, h⟩
        · obtain ⟨r, p, v, hmem, he⟩ := ih ps vs h
          exact ⟨r, p, v, by simp [hmem], he⟩

theorem rowResult_getField_prediction (r : Row) (p : Int) (v : List ℚ) :
    (rowResult r p v).getField "prediction" = some (Value.int p) := by
  unfold rowResult
  rw [Row.getField_setField_ne _ _ _ _ (by decide),
    Row.getField_setField_ne _ _ _ _ (by decide),
    Row.getField_setField_ne _ _ _ _ (by decide),
    Row.getField_setField_ne _ _ _ _ (by decide),
    Row.getField_setField_self]

theorem rowResult_getField_label (r : Row) (p : Int) (v : List ℚ) :
    (rowResult r p v).getField "prediction_label" =
      some (Value.str (if p = 1 then "yes" else "no")) := by
  unfold rowResult
  rw [Row.getField_setField_ne _ _ _ _ (by decide),
    Row.getField_setField_ne _ _ _ _ (by decide),
    Row.getField_setField_ne _ _ _ _ (by decide),
    Row.getField_setField_self]

theorem rowResult_getField_pno (r : Row) (p : Int) (v : List ℚ) :
    (rowResult r p v).getField "probability_no" =
      some (Value.num (v.getD 0 0)) := by
  unfold rowResult
  rw [Row.getField_setField_ne _ _ _ _ (by decide),
    Row.getField_setField_ne _ _ _ _ (by decide),
    Row.getField_setField_self]

theorem rowResult_getField_pyes (r : Row) (p : Int) (v : List ℚ) :
    (rowResult r p v).getField "probability_yes" =
      some (Value.num (v.getD 1 0)) := by
  unfold rowResult
  rw [Row.getField_setField_ne _ _ _ _ (by decide),
    Row.getField_setField_self]

theorem rowResult_getField_conf (r : Row) (p : Int) (v : List ℚ) :
    (rowResult r p v).getField "confidence" =
      some (Value.num (pymaxD v)) := by
  unfold rowResult
  rw [Row.getField_setField_self]

theorem rowResult_eq_append (r : Row) (p : Int) (v : List ℚ)
    (h1 : r.getField "prediction" = none)
    (h2 : r.getField "prediction_label" = none)
    (h3 : r.getField "probability_no" = none)
    (h4 : r.getField "probability_yes" = none)
    (h5 : r.getField "confidence" = none) :
    rowResult r p v = r ++
      [("prediction", Value.int p),
       ("prediction_label", Value.str (if p = 1 then "yes" else "no")),
       ("probability_no", Value.num (v.getD 0 0)),
       ("probability_yes", Value.num (v.getD 1 0)),
       ("confidence", Value.num (pymaxD v))] := by
  have g1 : r.setField "prediction" (Value.int p) =
      r ++ [("prediction", Value.int p)] :=
    Row.setField_eq_append _ _ _ h1
  have n2 : (r ++ [("prediction", Value.int p)]).getField "prediction_label" =
      none := by
    rw [Row.getField_append, h2]; simp [Row.getField]
  have g2 := Row.setField_eq_append _
    "prediction_label" (Value.str (if p = 1 then "yes" else "no")) n2
  have n3 : ((r ++ [("prediction", Value.int p)]) ++
      [("prediction_label", Value.str (if p = 1 then "yes" else "no"))]).getField
      "probability_no" = none := by
    rw [Row.getField_append, Row.getField_append, h3]; simp [Row.getField]
  have g3 := Row.setField_eq_append _ "probability_no"
    (Value.num (v.getD 0 0)) n3
  have n4 : (((r ++ [("prediction", Value.int p)]) ++
      [("prediction_label", Value.str (if p = 1 then "yes" else "no"))]) ++
      [("probability_no", Value.num (v.getD 0 0))]).getField
      "probability_yes" = none := by
    rw [Row.getField_append, Row.getField_append, Row.getField_append, h4]
    simp [Row.getField]
  have g4 := Row.setField_eq_append _ "probability_yes"
    (Value.num (v.getD 1 0)) n4
  have n5 : ((((r ++ [("prediction", Value.int p)]) ++
      [("prediction_label", Value.str (if p = 1 then "yes" else "no"))]) ++
      [("probability_no", Value.num (v.getD 0 0))]) ++
      [("probability_yes", Value.num (v.getD 1 0))]).getField
      "confidence" = none := by
    rw [Row.getField_append, Row.getField_append, Row.getField_append,
      Row.getField_append, h5]
    simp [Row.getField]
  have g5 := Row.setField_eq_append _ "confidence"
    (Value.num (pymaxD v)) n5
  unfold rowResult
  rw [g1, g2, g3, g4, g5]
  simp [List.append_assoc]

theorem predict_calls_predict_once (pt : BankMarketingPredictor) (r : Row) :
    (pt.predict r).calls.predictCalls = 1 := by
  simp only [BankMarketingPredictor.predict]
  cases h1 : pt.pipeline.predict [r] with
  | error e => rfl
  | ok preds =>
    cases h2 : preds[0]? with
    | none => simp [h2]
    | some c =>
      cases h3 : pt.pipeline.predict_proba [r] with
      | error e => simp [h2, h3]
      | ok probas =>
        cases h4 : probas[0]? with
        | none => simp [h2, h3, h4]
        | some v =>
          cases h5 : v[0]? <;> cases h6 : v[1]? <;>
            cases h7 : pymax v <;> simp [h2, h3, h4, h5, h6, h7]

/-! Claim theorems. -/

/-- C1: for every input record, when the loaded pipeline's predict on the
one-row table built from the record yields class index c and predict_proba
yields the probability vector [p0, p1], the single-prediction operation
returns exactly the dictionary with prediction c, prediction_label "yes"
iff c = 1 and "no" otherwise, probability_no p0, probability_yes p1, and
confidence max p0 p1, after invoking each pipeline operation once. -/
theorem predict_single_contract (pt : BankMarketingPredictor) (record : Row)
    (c : Int) (cr : List Int) (p0 p1 : ℚ) (pr : List (List ℚ))
    (h1 : pt.pipeline.predict [record] = .ok (c :: cr))
    (h2 : pt.pipeline.predict_proba [record] = .ok ([p0, p1] :: pr)) :
    pt.predict record =
      ⟨.ok ⟨c, if c = 1 then "yes" else "no", p0, p1, max p0 p1⟩, ⟨1, 1⟩⟩ :=
  predict_eq pt record c cr p0 p1 pr h1 h2

/-- Witness for C1, the spec's Scenario A: a stub pipeline returning class
index 1 and probability vector [0.3, 0.7] makes predict return prediction 1,
label "yes", probabilities 0.3 and 0.7, and confidence 0.7. -/
theorem predict_single_contract_witness :
    stubPredictor.predict sampleRecord =
      ⟨.ok ⟨1, "yes", 3/10, 7/10, 7/10⟩, ⟨1, 1⟩⟩ := by
  have h := predict_single_contract stubPredictor sampleRecord 1 []
    (3/10) (7/10) [] rfl rfl
  rw [h]
  norm_num [max_def]

/-- C2: results of the single operation satisfy the result invariant
(probabilities summing to one when the pipeline's vector does, confidence
equal to the exact maximum of the two probabilities, and label "yes" exactly
when the predicted class is 1), and so does every row of the batch result
frame. -/
theorem prediction_result_invariants
    (pt : BankMarketingPredictor) (record : Row) (input_df : DataFrame)
    (c : Int) (cr : List Int) (p0 p1 : ℚ) (pr : List (List ℚ))
    (preds : List Int) (probas : List (List ℚ))
    (h1 : pt.pipeline.predict [record] = .ok (c :: cr))
    (h2 : pt.pipeline.predict_proba [record] = .ok ([p0, p1] :: pr))
    (hsum : p0 + p1 = 1)
    (hb1 : pt.pipeline.predict input_df = .ok preds)
    (hb2 : pt.pipeline.predict_proba input_df = .ok probas)
    (hl1 : preds.length = input_df.length)
    (hl2 : probas.length = input_df.length)
    (hv : ∀ v ∈ probas, ∃ q0 q1, v = [q0, q1] ∧ q0 + q1 = 1) :
    (∃ res, (pt.predict record).result = .ok res ∧ resOK res) ∧
    ∃ out, (pt.predict_batch input_df).result = .ok out ∧
      ∀ row ∈ out, rowOK row := by
  constructor
  · refine ⟨⟨c, if c = 1 then "yes" else "no", p0, p1, max p0 p1⟩, ?_, ?_⟩
    · rw [predict_eq pt record c cr p0 p1 pr h1 h2]
    · simp only [resOK]
      refine ⟨hsum, trivial, ?_⟩
      by_cases hc : c = 1 <;> simp [hc]
  · have hv' : ∀ v ∈ probas, ∃ q0 q1, v = [q0, q1] := by
      intro v hvv
      obtain ⟨q0, q1, he, hs⟩ := hv v hvv
      exact ⟨q0, q1, he⟩
    refine ⟨rowResults input_df preds probas, ?_, ?_⟩
    · rw [predict_batch_eq pt input_df preds probas hb1 hb2 hl1 hl2 hv']
    · intro row hrow
      obtain ⟨r, p, v, hvmem, rfl⟩ := mem_rowResults _ _ _ _ hrow
      obtain ⟨q0, q1, hveq, hqsum⟩ := hv v hvmem
      subst hveq
      simp only [rowOK]
      refine ⟨p, q0, q1, rowResult_getField_prediction r p _,
        rowResult_getField_pno r p _, rowResult_getField_pyes r p _,
        rowResult_getField_conf r p _, hqsum, ?_⟩
      rw [rowResult_getField_label]
      by_cases hp : p = 1 <;> simp [hp]

/-- Witness for C2: the invariant theorem instantiated at the stub pipeline,
the example record, and a two-row table. -/
theorem prediction_result_invariants_witness :
    (∃ res, (stubPredictor.predict sampleRecord).result = .ok res ∧
      resOK res) ∧
    ∃ out, (stubPredictor.predict_batch
        [sampleRecord, sampleRecord]).result = .ok out ∧
      ∀ row ∈ out, rowOK row := by
  refine prediction_result_invariants stubPredictor sampleRecord
    [sampleRecord, sampleRecord] 1 [] (3/10) (7/10) [] [1, 1]
    [[3/10, 7/10], [3/10, 7/10]] rfl rfl (by norm_num) rfl rfl rfl rfl ?_
  intro v hv
  simp only [List.mem_cons, List.not_mem_nil, or_false, or_self] at hv
  exact ⟨3/10, 7/10, hv, by norm_num⟩

/-- C3: for a non-empty table on which the pipeline succeeds, predict_batch
returns a frame with exactly one result row per input row, of the same
length and in the same order, the i-th result row being built from input
row i, class index i, and probability vector i. -/
theorem predict_batch_row_alignment
    (pt : BankMarketingPredictor) (input_df : DataFrame)
    (preds : List Int) (probas : List (List ℚ))
    (hne : input_df ≠ [])
    (h1 : pt.pipeline.predict input_df = .ok preds)
    (h2 : pt.pipeline.predict_proba input_df = .ok probas)
    (hl1 : preds.length = input_df.length)
    (hl2 : probas.length = input_df.length)
    (hv : ∀ v ∈ probas, ∃ q0 q1, v = [q0, q1]) :
    ∃ out, (pt.predict_batch input_df).result = .ok out ∧
      out.length = input_df.length ∧
      ∀ i r p v, input_df.get? i = some r → preds.get? i = some p →
        probas.get? i = some v → out.get? i = some (rowResult r p v) := by
  refine ⟨rowResults input_df preds probas, ?_,
    rowResults_length input_df preds probas hl1 hl2, ?_⟩
  · rw [predict_batch_eq pt input_df preds probas h1 h2 hl1 hl2 hv]
  · intro i r p v hr hp hvv
    exact rowResults_get? input_df preds probas i r p v hr hp hvv

/-- Witness for C3: a three-row table under the stub pipeline. -/
theorem predict_batch_row_alignment_witness :
    ∃ out, (stubPredictor.predict_batch
        [sampleRecord, sampleRecord, sampleRecord]).result = .ok out ∧
      out.length =
        ([sampleRecord, sampleRecord, sampleRecord] : DataFrame).length ∧
      ∀ i r p v,
        ([sampleRecord, sampleRecord, sampleRecord] : DataFrame).get? i =
          some r →
        ([1, 1, 1] : List Int).get? i = some p →
        ([[3/10, 7/10], [3/10, 7/10], [3/10, 7/10]] :
          List (List ℚ)).get? i = some v →
        out.get? i = some (rowResult r p v) := by
  refine predict_batch_row_alignment stubPredictor
    [sampleRecord, sampleRecord, sampleRecord] [1, 1, 1]
    [[3/10, 7/10], [3/10, 7/10], [3/10, 7/10]]
    (by simp) rfl rfl rfl rfl ?_
  intro v hv
  simp only [List.mem_cons, List.not_mem_nil, or_false, or_self] at hv
  exact ⟨3/10, 7/10, hv⟩

/-- C8: one call to predict_batch invokes the pipeline's predict exactly
once and predict_proba exactly once over the whole table, whatever the
number of rows (the table is passed to the pipeline in one piece, not in a
per-row loop), provided the pipeline's predict call returns. -/
theorem batch_single_pipeline_invocation
    (pt : BankMarketingPredictor) (input_df : DataFrame) (preds : List Int)
    (h1 : pt.pipeline.predict input_df = .ok preds) :
    (pt.predict_batch input_df).calls = ⟨1, 1⟩ := by
  cases h2 : pt.pipeline.predict_proba input_df with
  | error e => simp [BankMarketingPredictor.predict_batch, h1, h2]
  | ok probas => simp [BankMarketingPredictor.predict_batch, h1, h2]

/-- Witness for C8: a two-row table under the stub pipeline yields exactly
one invocation of each pipeline operation. -/
theorem batch_single_pipeline_invocation_witness :
    (stubPredictor.predict_batch [sampleRecord, sampleRecord]).calls =
      ⟨1, 1⟩ :=
  batch_single_pipeline_invocation stubPredictor
    [sampleRecord, sampleRecord] [1, 1] rfl

/-- C9: on a schema-conforming table, every row of the batch result frame
is that row's original input fields, unchanged and in order, followed by
the five result fields. -/
theorem batch_preserves_input_fields
    (pt : BankMarketingPredictor) (input_df : DataFrame)
    (preds : List Int) (probas : List (List ℚ))
    (hschema : ∀ r ∈ input_df, r.isFeatureRow)
    (h1 : pt.pipeline.predict input_df = .ok preds)
    (h2 : pt.pipeline.predict_proba input_df = .ok probas)
    (hl1 : preds.length = input_df.length)
    (hl2 : probas.length = input_df.length)
    (hv : ∀ v ∈ probas, ∃ q0 q1, v = [q0, q1]) :
    ∃ out, (pt.predict_batch input_df).result = .ok out ∧
      out.length = input_df.length ∧
      ∀ i r p v, input_df.get? i = some r → preds.get? i = some p →
        probas.get? i = some v →
        out.get? i = some (r ++
          [("prediction", Value.int p),
           ("prediction_label", Value.str (if p = 1 then "yes" else "no")),
           ("probability_no", Value.num (v.getD 0 0)),
           ("probability_yes", Value.num (v.getD 1 0)),
           ("confidence", Value.num (pymaxD v))]) := by
  refine ⟨rowResults input_df preds probas, ?_,
    rowResults_length input_df preds probas hl1 hl2, ?_⟩
  · rw [predict_batch_eq pt input_df preds probas h1 h2 hl1 hl2 hv]
  · intro i r p v hr hp hvv
    have hmem : r ∈ input_df := List.get?_mem hr
    have hs : r.map Prod.fst = requiredFields := hschema r hmem
    have hnone : ∀ k, k ∉ requiredFields → r.getField k = none := by
      intro k hk
      exact Row.getField_eq_none_of_not_mem r k (by rw [hs]; exact hk)
    rw [rowResults_get? input_df preds probas i r p v hr hp hvv]
    rw [rowResult_eq_append r p v (hnone _ (by decide)) (hnone _ (by decide))
      (hnone _ (by decide)) (hnone _ (by decide)) (hnone _ (by decide))]

/-- Witness for C9: a one-row table holding the example record under the
stub pipeline. -/
theorem batch_preserves_input_fields_witness :
    ∃ out, (stubPredictor.predict_batch [sampleRecord]).result = .ok out ∧
      out.length = ([sampleRecord] : DataFrame).length ∧
      ∀ i r p v,
        ([sampleRecord] : DataFrame).get? i = some r →
        ([1] : List Int).get? i = some p →
        ([[3/10, 7/10]] : List (List ℚ)).get? i = some v →
        out.get? i = some (r ++
          [("prediction", Value.int p),
           ("prediction_label", Value.str (if p = 1 then "yes" else "no")),
           ("probability_no", Value.num (v.getD 0 0)),
           ("probability_yes", Value.num (v.getD 1 0)),
           ("confidence", Value.num (pymaxD v))]) := by
  refine batch_preserves_input_fields stubPredictor [sampleRecord] [1]
    [[3/10, 7/10]] ?_ rfl rfl rfl rfl ?_
  · intro r hr
    simp only [List.mem_singleton] at hr
    subst hr
    rfl
  · intro v hv
    simp only [List.mem_singleton] at hv
    exact ⟨3/10, 7/10, hv⟩

/-- C10: predict_batch never mutates its input table; whether the call
returns normally or raises, the caller's frame afterwards holds exactly the
rows, columns and values it held before (the result is built on a copy). -/
theorem predict_batch_input_unchanged (pt : BankMarketingPredictor)
    (input_df : DataFrame) :
    (pt.predict_batch input_df).input_after = input_df := by
  cases h1 : pt.pipeline.predict input_df with
  | error e => simp [BankMarketingPredictor.predict_batch, h1]
  | ok preds =>
    cases h2 : pt.pipeline.predict_proba input_df with
    | error e => simp [BankMarketingPredictor.predict_batch, h1, h2]
    | ok probas => simp [BankMarketingPredictor.predict_batch, h1, h2]

/-- C4 counterexample: a record missing 19 of the 20 schema fields is
accepted by the request model without any ValidationError, and the pipeline
is invoked (once for predict and once for predict_proba) rather than zero
times; the call even succeeds. -/
theorem api_accepts_unvalidated_record :
    api_predict stubPredictor recordMissingFields =
      (.ok ⟨1, "yes", 3/10, 7/10, 7/10⟩, ⟨1, 1⟩) := by
  have h := predict_eq stubPredictor recordMissingFields 1 []
    (3/10) (7/10) [] rfl rfl
  unfold api_predict
  simp only [PredictionRequest.validate, h]
  norm_num [max_def]

/-- C4 amended: the request model declares no fields and allows extras, so
every record passes validation unchanged and the single-prediction route
always invokes the pipeline's predict exactly once, with no field check
before the call. -/
theorem api_no_field_validation (pt : BankMarketingPredictor) (r : Row) :
    PredictionRequest.validate r = .ok r ∧
    (api_predict pt r).2.predictCalls = 1 := by
  refine ⟨rfl, ?_⟩
  unfold api_predict
  simp only [PredictionRequest.validate]
  cases h : (pt.predict r).result with
  | ok res => simp [h, predict_calls_predict_once]
  | error e => simp [h, predict_calls_predict_once]

/-- C5 counterexample: a batch call on an empty table fails, but with the
generic HTTP 500 wrapper produced by the route's broad exception handler
(which swallows its own 400 "Uploaded file is empty"), not with any
ValidationError kind. -/
theorem empty_batch_generic_error :
    api_predict_batch stubPredictor [] =
      (.error (.httpException 500
        "Error processing batch prediction: 400: Uploaded file is empty"),
       ⟨0, 0⟩) ∧
    Exc.isValidationError (.httpException 500
      "Error processing batch prediction: 400: Uploaded file is empty") =
      false := by
  constructor
  · rfl
  · rfl

/-- C5 amended: on an empty table the batch route raises before the
predictor is called (zero pipeline invocations), but the error is the
route's generic HTTP 500 exception wrapping the internal 400 "Uploaded file
is empty", not a distinct ValidationError kind. -/
theorem empty_batch_http500 (pt : BankMarketingPredictor) :
    api_predict_batch pt [] =
      (.error (.httpException 500 ("Error processing batch prediction: " ++
          excMessage (.httpException 400 "Uploaded file is empty"))),
       ⟨0, 0⟩) := rfl

/-- C6 counterexample: a pipeline that raises makes predict and
predict_batch re-raise the very same exception, which is not a
PipelineInferenceError (no such wrapping exists in the code). -/
theorem pipeline_error_not_wrapped :
    (raisingPredictor.predict sampleRecord).result = .error (.raised "boom") ∧
    (raisingPredictor.predict_batch [sampleRecord]).result =
      .error (.raised "boom") ∧
    Exc.isPipelineInferenceError (.raised "boom") = false :=
  ⟨rfl, rfl, rfl⟩

/-- C6 amended: an exception raised by the loaded pipeline during either of
its operations — predict, or predict_proba after predict returned — is
logged and re-raised unchanged out of the single and the batch operation:
the caller sees the original exception, never a PipelineInferenceError
wrapper (the predictor itself is stateless, so later calls are
unaffected). -/
theorem pipeline_error_reraised (pt : BankMarketingPredictor) (record : Row)
    (input_df : DataFrame) :
    (∀ e, pt.pipeline.predict [record] = .error e →
      (pt.predict record).result = .error e) ∧
    (∀ (c : Int) (cr : List Int) (e : Exc),
      pt.pipeline.predict [record] = .ok (c :: cr) →
      pt.pipeline.predict_proba [record] = .error e →
      (pt.predict record).result = .error e) ∧
    (∀ e, pt.pipeline.predict input_df = .error e →
      (pt.predict_batch input_df).result = .error e) ∧
    (∀ (preds : List Int) (e : Exc),
      pt.pipeline.predict input_df = .ok preds →
      pt.pipeline.predict_proba input_df = .error e →
      (pt.predict_batch input_df).result = .error e) := by
  refine ⟨?_, ?_, ?_, ?_⟩
  · intro e h1
    simp [BankMarketingPredictor.predict, h1]
  · intro c cr e h1 h2
    simp [BankMarketingPredictor.predict, h1, h2]
  · intro e h1
    simp [BankMarketingPredictor.predict_batch, h1]
  · intro preds e h1 h2
    simp [BankMarketingPredictor.predict_batch, h1, h2]

/-- Witness for C6 amended: a predict-raising pipeline and a
proba-raising pipeline each propagate their own exception unchanged out of
both the single and the batch operation. -/
theorem pipeline_error_reraised_witness :
    (raisingPredictor.predict recordMissingFields).result =
      .error (.raised "boom") ∧
    (probaRaisingPredictor.predict recordMissingFields).result =
      .error (.raised "proba boom") ∧
    (raisingPredictor.predict_batch [recordMissingFields]).result =
      .error (.raised "boom") ∧
    (probaRaisingPredictor.predict_batch [recordMissingFields]).result =
      .error (.raised "proba boom") := by
  have a := pipeline_error_reraised raisingPredictor recordMissingFields
    [recordMissingFields]
  have b := pipeline_error_reraised probaRaisingPredictor recordMissingFields
    [recordMissingFields]
  exact ⟨a.1 (.raised "boom") rfl,
    b.2.1 1 [] (.raised "proba boom") rfl rfl,
    a.2.2.1 (.raised "boom") rfl,
    b.2.2.2 [1] (.raised "proba boom") rfl rfl⟩

/-- C7 counterexample: constructing the predictor over a store with no
artifact fails with the store's own FileNotFoundError, which is neither a
PipelineLoadError nor a ServiceUnavailableError; since construction fails
at module import, no predictor object exists to answer later predict calls
at all. -/
theorem load_error_not_wrapped :
    BankMarketingPredictor.init emptyStore "models/best_rf_pipeline.pkl" =
      .error (.fileNotFound "models/best_rf_pipeline.pkl") ∧
    Exc.isPipelineLoadError
      (.fileNotFound "models/best_rf_pipeline.pkl") = false ∧
    Exc.isServiceUnavailableError
      (.fileNotFound "models/best_rf_pipeline.pkl") = false :=
  ⟨rfl, rfl, rfl⟩

/-- C7 amended: a load failure is logged and re-raised unchanged out of the
constructor — never as a PipelineLoadError — so the module-level predictor
is never created; no predict call and no ServiceUnavailableError can follow
short of restarting the process with a fixed artifact. -/
theorem load_reraises_store_error (store : String → Except Exc Pipeline)
    (path : String) (e : Exc) (h : store path = .error e) :
    BankMarketingPredictor.init store path = .error e := by
  simp [BankMarketingPredictor.init, BankMarketingPredictor.load_pipeline, h]

/-- Witness for C7 amended: the empty store's FileNotFoundError propagates
out of construction unchanged. -/
theorem load_reraises_store_error_witness :
    BankMarketingPredictor.init emptyStore "missing.pkl" =
      .error (.fileNotFound "missing.pkl") :=
  load_reraises_store_error emptyStore "missing.pkl"
    (.fileNotFound "missing.pkl") rfl
